import Mathlib

set_option autoImplicit false

namespace BankruptcyRetrieval

/-
Shallow embedding of the bankruptcy-retrieval pipeline.

Sources embedded here:
  shared/gatekeeper.py  — LLM gatekeeper result parsing and fail-closed logic
  shared/telemetry.py   — outcome classification and benchmark counting
  shared/config.py      — exclusion sets and constants
  validators.py / tools.py — PDF URL domain allow-list
  fetcher.py            — streaming download with 50 MB ceiling
  nodes.py / graph.py   — the LangGraph pipeline (worktree C)
  main.py               — the straight-line pipeline (worktree A)
  scout.py              — the 30-day petition date guard (worktree B)

JSON numbers and scores are modelled as rationals; external library calls
(json.loads, httpx transport, dateutil parsing, the LLM backend, the HTTP
chunk stream) are abstracted into explicit outcome data that the embedded
control flow consumes.
-/

-- ═════════════════════════════════════════════════════════════════════════
-- §1  Gatekeeper (shared/gatekeeper.py)
-- ═════════════════════════════════════════════════════════════════════════

/-- Result record of one Gatekeeper evaluation
    (shared/gatekeeper.py, dataclass GatekeeperResult). -/
structure GatekeeperResult where
  verdict : String
  score : ℚ
  reasoning : String
  token_count : ℕ
  model_used : String
  latency_ms : ℕ
  error : Option String
deriving Repr, DecidableEq

/-- A JSON-decoded Python value as it can appear in the score field of the
    parsed backend response.  The str constructor carries the result of
    Python float() applied to that string (none when the conversion raises
    ValueError); null, arrays and objects make float() raise TypeError. -/
inductive PyVal where
  | num (q : ℚ)
  | str (floatParse : Option ℚ)
  | boolean (b : Bool)
  | null
  | arr
  | obj
deriving Repr, DecidableEq

/-- Python float(x) applied to a JSON-decoded value: numbers pass through,
    booleans coerce to 0 or 1, numeric strings parse, everything else raises
    TypeError or ValueError (modelled as the error case). -/
def pyFloat : PyVal → Except String ℚ
  | .num q => .ok q
  | .str (some q) => .ok q
  | .str none => .error "ValueError: could not convert string to float"
  | .boolean b => .ok (if b then 1 else 0)
  | .null => .error "TypeError: float() argument must be a number"
  | .arr => .error "TypeError: float() argument must be a number"
  | .obj => .error "TypeError: float() argument must be a number"

/-- The JSON object decoded from the backend response, restricted to the keys
    _parse_response reads.  scoreField = none models a missing score key
    (Python parsed.get with default 0.0); verdictField is the verdict string
    the backend itself states, which the code never reads; reasoningField
    carries the value passed through Python str(). -/
structure ParsedDict where
  scoreField : Option PyVal
  verdictField : Option String
  reasoningField : Option String
deriving Repr, DecidableEq

/-- Python string slicing s[:n]: keep the first n characters. -/
def pyTruncate (s : String) (n : ℕ) : String :=
  ⟨s.data.take n⟩

/-- The expression float(parsed.get("score", 0.0)) from _parse_response. -/
def extractScore (d : ParsedDict) : Except String ℚ :=
  match d.scoreField with
  | none => .ok 0
  | some v => pyFloat v

/-- LLMGatekeeper._fallback_skip. -/
def fallbackSkip (model errorMsg : String) (tokenCount latencyMs : ℕ) :
    GatekeeperResult :=
  { verdict := "SKIP", score := 0,
    reasoning := "Parse failure — conservative SKIP",
    token_count := tokenCount, model_used := model,
    latency_ms := latencyMs, error := some errorMsg }

/-- Outcome of the JSON-decoding part of _parse_response (markdown fence
    stripping, json.loads, and the balanced-braces regex retry): decoding can
    fail outright, succeed with a non-dict value (on which the subsequent
    .get call raises AttributeError), or produce a dict. -/
inductive ParseOutcome where
  | noJson (msg : String)
  | nonDict
  | dict (d : ParsedDict)
deriving Repr, DecidableEq

/-- LLMGatekeeper._parse_response from JSON decoding onward.  An exception
    that escapes the method (AttributeError on a non-dict value) is the
    error case of the Except; a caught parse or conversion failure becomes a
    fallback SKIP result. -/
def parseResponse (threshold : ℚ) (model : String) (po : ParseOutcome)
    (tokenCount latencyMs : ℕ) : Except String GatekeeperResult :=
  match po with
  | .noJson msg => .ok (fallbackSkip model msg tokenCount latencyMs)
  | .nonDict => .error "AttributeError"
  | .dict d =>
    match extractScore d with
    | .error e => .ok (fallbackSkip model e tokenCount latencyMs)
    | .ok q =>
      let score : ℚ := max 0 (min 1 q)
      .ok { verdict := if threshold ≤ score then "DOWNLOAD" else "SKIP",
            score := score,
            reasoning :=
              pyTruncate (d.reasoningField.getD "No reasoning provided") 200,
            token_count := tokenCount, model_used := model,
            latency_ms := latencyMs, error := none }

/-- What the transport layer plus response decoding produced for one
    evaluate call: a non-2xx status (httpx.HTTPStatusError), any other
    exception (timeouts, connection errors), or a decoded body. -/
inductive TransportOutcome where
  | httpStatusError (status : ℕ) (latencyMs : ℕ)
  | otherError (msg : String) (latencyMs : ℕ)
  | ok (po : ParseOutcome) (tokenCount latencyMs : ℕ)
deriving Repr, DecidableEq

/-- LLMGatekeeper.evaluate: the two except arms of the source, and the
    catch-all arm also absorbing any exception _parse_response raises. -/
def evaluate (threshold : ℚ) (model : String) : TransportOutcome → GatekeeperResult
  | .httpStatusError status lat =>
    { verdict := "SKIP", score := 0,
      reasoning := "LLM call failed — HTTP error",
      token_count := 0, model_used := model, latency_ms := lat,
      error := some ("HTTP " ++ toString status) }
  | .otherError msg lat =>
    { verdict := "SKIP", score := 0,
      reasoning := "LLM call failed — unexpected error",
      token_count := 0, model_used := model, latency_ms := lat,
      error := some msg }
  | .ok po tok lat =>
    match parseResponse threshold model po tok lat with
    | .ok r => r
    | .error e =>
      { verdict := "SKIP", score := 0,
        reasoning := "LLM call failed — unexpected error",
        token_count := 0, model_used := model, latency_ms := lat,
        error := some e }

/-- The failing evaluate inputs: transport errors, undecodable responses,
    non-dict responses, and score fields on which float() raises. -/
def gatekeeperFailure : TransportOutcome → Bool
  | .httpStatusError _ _ => true
  | .otherError _ _ => true
  | .ok po _ _ =>
    match po with
    | .noJson _ => true
    | .nonDict => true
    | .dict d => match extractScore d with | .error _ => true | .ok _ => false

-- ═════════════════════════════════════════════════════════════════════════
-- Theorems for C1 and C2
-- ═════════════════════════════════════════════════════════════════════════

/-- C1: for every backend response parsed by the Gatekeeper, the returned
    score is the parsed score clamped to [0,1], the verdict is DOWNLOAD
    exactly when that clamped score reaches the configured threshold and
    SKIP otherwise, and the verdict string the backend itself states plays
    no role in the result. -/
theorem gatekeeper_verdict_is_score_derived
    (threshold : ℚ) (model : String) (d : ParsedDict) (tok lat : ℕ) (q : ℚ)
    (h : extractScore d = .ok q) :
    ∃ r, parseResponse threshold model (.dict d) tok lat = .ok r ∧
      r.score = max 0 (min 1 q) ∧
      r.verdict = (if threshold ≤ max 0 (min 1 q) then "DOWNLOAD" else "SKIP") ∧
      ∀ v, parseResponse threshold model
        (.dict { d with verdictField := v }) tok lat = .ok r := by
  refine ⟨{ verdict := if threshold ≤ max 0 (min 1 q) then "DOWNLOAD" else "SKIP",
            score := max 0 (min 1 q),
            reasoning :=
              pyTruncate (d.reasoningField.getD "No reasoning provided") 200,
            token_count := tok, model_used := model, latency_ms := lat,
            error := none }, ?_, rfl, rfl, ?_⟩
  · simp [parseResponse, h]
  · intro v
    have hv : extractScore { d with verdictField := v } = .ok q := h
    simp [parseResponse, hv]

/-- Witness for C1 at a concrete input: the backend reports score 0.9 but
    claims verdict SKIP; with threshold 0.7 the derived verdict is DOWNLOAD. -/
theorem gatekeeper_verdict_is_score_derived_witness :
    extractScore ⟨some (.num (9/10)), some "SKIP", some "ok"⟩ = .ok (9/10) ∧
    ∃ r, parseResponse (7/10) "m"
        (.dict ⟨some (.num (9/10)), some "SKIP", some "ok"⟩) 5 10 = .ok r ∧
      r.score = max 0 (min 1 (9/10)) ∧
      r.verdict = (if (7:ℚ)/10 ≤ max 0 (min 1 (9/10)) then "DOWNLOAD" else "SKIP") ∧
      ∀ v, parseResponse (7/10) "m"
        (.dict { (⟨some (.num (9/10)), some "SKIP", some "ok"⟩ : ParsedDict) with
                  verdictField := v }) 5 10 = .ok r :=
  ⟨rfl, gatekeeper_verdict_is_score_derived (7/10) "m"
    ⟨some (.num (9/10)), some "SKIP", some "ok"⟩ 5 10 (9/10) rfl⟩

/-- C2: evaluate is a total function (it never raises), and on every
    transport error or parse/validation failure it returns a result with
    verdict SKIP, score 0.0 and the error field set. -/
theorem gatekeeper_fail_closed
    (threshold : ℚ) (model : String) (t : TransportOutcome)
    (h : gatekeeperFailure t = true) :
    (evaluate threshold model t).verdict = "SKIP" ∧
    (evaluate threshold model t).score = 0 ∧
    (evaluate threshold model t).error.isSome = true := by
  cases t with
  | httpStatusError status lat => exact ⟨rfl, rfl, rfl⟩
  | otherError msg lat => exact ⟨rfl, rfl, rfl⟩
  | ok po tok lat =>
    cases po with
    | noJson msg => exact ⟨rfl, rfl, rfl⟩
    | nonDict => exact ⟨rfl, rfl, rfl⟩
    | dict d =>
      simp only [gatekeeperFailure] at h
      cases he : extractScore d with
      | error e =>
        simp [evaluate, parseResponse, he, fallbackSkip]
      | ok q => simp [he] at h

/-- Witness for C2 at a concrete input: an HTTP 500 transport error yields
    the fail-closed SKIP result. -/
theorem gatekeeper_fail_closed_witness :
    gatekeeperFailure (.httpStatusError 500 3) = true ∧
    ((evaluate (7/10) "m" (.httpStatusError 500 3)).verdict = "SKIP" ∧
     (evaluate (7/10) "m" (.httpStatusError 500 3)).score = 0 ∧
     (evaluate (7/10) "m" (.httpStatusError 500 3)).error.isSome = true) :=
  ⟨rfl, gatekeeper_fail_closed (7/10) "m" (.httpStatusError 500 3) rfl⟩

-- ═════════════════════════════════════════════════════════════════════════
-- §2  Telemetry: classification, outcome registry, benchmark counts
--     (shared/telemetry.py)
-- ═════════════════════════════════════════════════════════════════════════

/-- One ground-truth row: the two flags classify reads (missing JSON keys
    default to false via dict.get). -/
structure GroundTruthEntry where
  already_processed : Bool
  has_financial_data : Bool
deriving Repr, DecidableEq

/-- Lookup in an association list keyed by strings; models Python
    dict.get(key) on a dict represented by its (key, value) items. -/
def assocFind {β : Type} (k : String) : List (String × β) → Option β
  | [] => none
  | (k2, v) :: rest => if k2 = k then some v else assocFind k rest

/-- TelemetryLogger.classify: compare one pipeline outcome against the
    ground-truth table. -/
def classify (gt : List (String × GroundTruthEntry)) (dealId status : String) :
    String :=
  match assocFind dealId gt with
  | none => "UNCLASSIFIED"
  | some truth =>
    if truth.already_processed then "ALREADY_PROCESSED"
    else if status = "DOWNLOADED" then
      (if truth.has_financial_data then "TRUE_POSITIVE" else "FALSE_POSITIVE")
    else if status = "SKIPPED" ∨ status = "NOT_FOUND" then
      (if ¬truth.has_financial_data then "TRUE_NEGATIVE" else "FALSE_NEGATIVE")
    else if status = "FETCH_FAILED" then
      (if truth.has_financial_data then "FALSE_NEGATIVE" else "TRUE_NEGATIVE")
    else "UNCLASSIFIED"

/-- The confusion-matrix counters accumulated by TelemetryLogger.finalise. -/
structure BenchCounts where
  tp : ℕ
  fp : ℕ
  fn : ℕ
  tn : ℕ
  already : ℕ
  unclassified : ℕ
  already_incorrect : ℕ
deriving Repr, DecidableEq

/-- One iteration of the counting loop in finalise: classify one registered
    outcome and bump exactly one counter (plus the exclusion-leak counter
    inside the ALREADY_PROCESSED arm). -/
def finaliseStep (gt : List (String × GroundTruthEntry)) (acc : BenchCounts)
    (entry : String × String) : BenchCounts :=
  let c := classify gt entry.1 entry.2
  if c = "TRUE_POSITIVE" then { acc with tp := acc.tp + 1 }
  else if c = "FALSE_POSITIVE" then { acc with fp := acc.fp + 1 }
  else if c = "FALSE_NEGATIVE" then { acc with fn := acc.fn + 1 }
  else if c = "TRUE_NEGATIVE" then { acc with tn := acc.tn + 1 }
  else if c = "ALREADY_PROCESSED" then
    { acc with
      already := acc.already + 1
      already_incorrect :=
        if entry.2 ≠ "ALREADY_PROCESSED" then acc.already_incorrect + 1
        else acc.already_incorrect }
  else { acc with unclassified := acc.unclassified + 1 }

/-- The counting loop of TelemetryLogger.finalise over the outcome registry
    (deal id, terminal status pairs, one per distinct deal id). -/
def finaliseCounts (gt : List (String × GroundTruthEntry))
    (outcomes : List (String × String)) : BenchCounts :=
  outcomes.foldl (finaliseStep gt) ⟨0, 0, 0, 0, 0, 0, 0⟩

/-- The deals_total field of the benchmark report: len(self._outcomes). -/
def dealsTotal (outcomes : List (String × String)) : ℕ :=
  outcomes.length

/-- Python dict assignment d[k] = v on a dict represented as an ordered
    association list: an existing key keeps its position and gets the new
    value, a new key is appended. -/
def dictInsert (k v : String) : List (String × String) → List (String × String)
  | [] => [(k, v)]
  | (k2, v2) :: rest =>
    if k2 = k then (k2, v) :: rest else (k2, v2) :: dictInsert k v rest

/-- The outcome registry self._outcomes after a sequence of registering
    calls, each pair being one log_pipeline_terminal(deal, status) or
    log_exclusion_skip (which writes ALREADY_PROCESSED), in call order. -/
def applyTerminalEvents (events : List (String × String)) :
    List (String × String) :=
  events.foldl (fun reg e => dictInsert e.1 e.2 reg) []

/-- The status most recently recorded for a deal id in an event sequence
    (events listed in call order, so later entries override earlier ones). -/
def lastWrite : List (String × String) → String → Option String
  | [], _ => none
  | (k, v) :: rest, dealId =>
    match lastWrite rest dealId with
    | some s => some s
    | none => if k = dealId then some v else none

-- Helper lemmas for the registry proofs.

theorem assocFind_dictInsert (k v a : String) (reg : List (String × String)) :
    assocFind a (dictInsert k v reg) =
      if k = a then some v else assocFind a reg := by
  induction reg with
  | nil => by_cases h : k = a <;> simp [dictInsert, assocFind, h]
  | cons hd tl ih =>
    obtain ⟨k2, v2⟩ := hd
    by_cases h2 : k2 = k
    · subst h2
      by_cases h : k2 = a <;> simp [dictInsert, assocFind, h]
    · by_cases h : k2 = a
      · subst h
        have hne : ¬ k = k2 := fun hc => h2 hc.symm
        simp [dictInsert, assocFind, h2, hne]
      · simp [dictInsert, assocFind, h2, h, ih]

theorem assocFind_foldl_events (events : List (String × String))
    (reg : List (String × String)) (a : String) :
    assocFind a (events.foldl (fun r e => dictInsert e.1 e.2 r) reg) =
      (match lastWrite events a with
        | some s => some s
        | none => assocFind a reg) := by
  induction events generalizing reg with
  | nil => simp [lastWrite]
  | cons e rest ih =>
    obtain ⟨k, v⟩ := e
    simp only [List.foldl_cons, ih]
    cases hlast : lastWrite rest a with
    | some s => simp [lastWrite, hlast]
    | none =>
      simp only [lastWrite, hlast, assocFind_dictInsert]
      by_cases hk : k = a <;> simp [hk]

theorem keys_dictInsert (k v : String) (reg : List (String × String)) :
    (dictInsert k v reg).map Prod.fst =
      if k ∈ reg.map Prod.fst then reg.map Prod.fst
      else reg.map Prod.fst ++ [k] := by
  induction reg with
  | nil => simp [dictInsert]
  | cons hd tl ih =>
    obtain ⟨k2, v2⟩ := hd
    by_cases h2 : k2 = k
    · subst h2
      simp [dictInsert]
    · have hne : ¬ k = k2 := fun hc => h2 hc.symm
      by_cases hmem : k ∈ tl.map Prod.fst <;>
        simp [dictInsert, h2, ih, hmem, hne]

theorem nodup_keys_dictInsert (k v : String) (reg : List (String × String))
    (h : (reg.map Prod.fst).Nodup) :
    ((dictInsert k v reg).map Prod.fst).Nodup := by
  rw [keys_dictInsert]
  by_cases hmem : k ∈ reg.map Prod.fst
  · simpa [hmem]
  · simpa [hmem, List.nodup_append] using h

theorem mem_keys_dictInsert (k v a : String) (reg : List (String × String)) :
    a ∈ (dictInsert k v reg).map Prod.fst ↔
      a = k ∨ a ∈ reg.map Prod.fst := by
  rw [keys_dictInsert]
  by_cases hmem : k ∈ reg.map Prod.fst
  · rw [if_pos hmem]
    constructor
    · exact fun h => Or.inr h
    · rintro (rfl | h)
      · exact hmem
      · exact h
  · rw [if_neg hmem, List.mem_append]
    simp [or_comm]

theorem registry_keys_spec (events : List (String × String))
    (reg : List (String × String)) (h : (reg.map Prod.fst).Nodup) :
    (((events.foldl (fun r e => dictInsert e.1 e.2 r) reg).map Prod.fst).Nodup ∧
      ∀ a, a ∈ (events.foldl (fun r e => dictInsert e.1 e.2 r) reg).map Prod.fst ↔
        (a ∈ events.map Prod.fst ∨ a ∈ reg.map Prod.fst)) := by
  induction events generalizing reg with
  | nil => simpa using h
  | cons e rest ih =>
    obtain ⟨k, v⟩ := e
    simp only [List.foldl_cons]
    obtain ⟨h1, h2⟩ := ih (dictInsert k v reg) (nodup_keys_dictInsert k v reg h)
    refine ⟨h1, fun a => ?_⟩
    rw [h2 a, mem_keys_dictInsert]
    simp [or_assoc]
    tauto

theorem finaliseStep_sum (gt : List (String × GroundTruthEntry))
    (acc : BenchCounts) (entry : String × String) :
    (finaliseStep gt acc entry).tp + (finaliseStep gt acc entry).fp +
      (finaliseStep gt acc entry).fn + (finaliseStep gt acc entry).tn +
      (finaliseStep gt acc entry).already +
      (finaliseStep gt acc entry).unclassified =
    acc.tp + acc.fp + acc.fn + acc.tn + acc.already + acc.unclassified + 1 := by
  simp only [finaliseStep]
  repeat' split
  all_goals simp
  all_goals omega

theorem finaliseCounts_sum_aux (gt : List (String × GroundTruthEntry))
    (outcomes : List (String × String)) (acc : BenchCounts) :
    (outcomes.foldl (finaliseStep gt) acc).tp +
      (outcomes.foldl (finaliseStep gt) acc).fp +
      (outcomes.foldl (finaliseStep gt) acc).fn +
      (outcomes.foldl (finaliseStep gt) acc).tn +
      (outcomes.foldl (finaliseStep gt) acc).already +
      (outcomes.foldl (finaliseStep gt) acc).unclassified =
    acc.tp + acc.fp + acc.fn + acc.tn + acc.already + acc.unclassified +
      outcomes.length := by
  induction outcomes generalizing acc with
  | nil => simp
  | cons e rest ih =>
    simp only [List.foldl_cons, ih, finaliseStep_sum, List.length_cons]
    omega

-- ═════════════════════════════════════════════════════════════════════════
-- Theorems for C3, C6 and C10
-- ═════════════════════════════════════════════════════════════════════════

/-- C3: classify returns ALREADY_PROCESSED whenever ground truth marks the
    deal already processed regardless of status; otherwise TRUE/FALSE
    POSITIVE for DOWNLOADED according to has_financial_data,
    TRUE/FALSE NEGATIVE for SKIPPED or NOT_FOUND according to the negation
    of has_financial_data, FALSE_NEGATIVE or TRUE_NEGATIVE for FETCH_FAILED
    according to has_financial_data, and UNCLASSIFIED when the deal id is
    absent from ground truth. -/
theorem classify_matches_ground_truth
    (gt : List (String × GroundTruthEntry)) (dealId status : String) :
    (assocFind dealId gt = none → classify gt dealId status = "UNCLASSIFIED") ∧
    (∀ t, assocFind dealId gt = some t → t.already_processed = true →
      classify gt dealId status = "ALREADY_PROCESSED") ∧
    (∀ t, assocFind dealId gt = some t → t.already_processed = false →
      ((status = "DOWNLOADED" → classify gt dealId status =
          (if t.has_financial_data then "TRUE_POSITIVE" else "FALSE_POSITIVE")) ∧
       (status = "SKIPPED" ∨ status = "NOT_FOUND" → classify gt dealId status =
          (if t.has_financial_data then "FALSE_NEGATIVE" else "TRUE_NEGATIVE")) ∧
       (status = "FETCH_FAILED" → classify gt dealId status =
          (if t.has_financial_data then "FALSE_NEGATIVE" else "TRUE_NEGATIVE")))) := by
  refine ⟨fun hnone => ?_, fun t ht hap => ?_, fun t ht hap => ⟨?_, ?_, ?_⟩⟩
  · simp [classify, hnone]
  · simp [classify, ht, hap]
  · rintro rfl
    cases hfd : t.has_financial_data <;> simp [classify, ht, hap, hfd]
  · rintro (rfl | rfl) <;>
      cases hfd : t.has_financial_data <;> simp [classify, ht, hap, hfd]
  · rintro rfl
    cases hfd : t.has_financial_data <;> simp [classify, ht, hap, hfd]

/-- Witness for C3 at concrete inputs: a ground truth with one active deal
    that has financial data classifies a DOWNLOADED outcome TRUE_POSITIVE. -/
theorem classify_matches_ground_truth_witness :
    assocFind "acme-2023" [("acme-2023", (⟨false, true⟩ : GroundTruthEntry))] =
      some ⟨false, true⟩ ∧
    classify [("acme-2023", (⟨false, true⟩ : GroundTruthEntry))]
        "acme-2023" "DOWNLOADED" =
      (if (⟨false, true⟩ : GroundTruthEntry).has_financial_data
        then "TRUE_POSITIVE" else "FALSE_POSITIVE") :=
  ⟨rfl, ((classify_matches_ground_truth
      [("acme-2023", ⟨false, true⟩)] "acme-2023" "DOWNLOADED").2.2
    ⟨false, true⟩ rfl rfl).1 rfl⟩

/-- C6: in the benchmark report written by finalise, the counters
    TP + FP + FN + TN + already_processed + unclassified always add up to
    deals_total, the number of registered deals. -/
theorem benchmark_count_integrity
    (gt : List (String × GroundTruthEntry))
    (outcomes : List (String × String)) :
    (finaliseCounts gt outcomes).tp + (finaliseCounts gt outcomes).fp +
      (finaliseCounts gt outcomes).fn + (finaliseCounts gt outcomes).tn +
      (finaliseCounts gt outcomes).already +
      (finaliseCounts gt outcomes).unclassified = dealsTotal outcomes := by
  simp only [finaliseCounts, dealsTotal, finaliseCounts_sum_aux]
  omega

/-- C10: the outcome registry is keyed by deal id with last-write-wins
    semantics — the classification input for a deal id is the status most
    recently recorded for it — its keys stay duplicate-free and are exactly
    the deal ids that logged a terminal event, and deals_total therefore
    counts each distinct deal id once, not once per terminal event. -/
theorem outcome_registry_last_write_wins (events : List (String × String)) :
    (∀ a, assocFind a (applyTerminalEvents events) = lastWrite events a) ∧
    ((applyTerminalEvents events).map Prod.fst).Nodup ∧
    (∀ a, a ∈ (applyTerminalEvents events).map Prod.fst ↔
      a ∈ events.map Prod.fst) ∧
    dealsTotal (applyTerminalEvents events) =
      (events.map Prod.fst).dedup.length := by
  obtain ⟨hnd, hmem⟩ := registry_keys_spec events [] (by simp)
  have hmem2 : ∀ a, a ∈ (applyTerminalEvents events).map Prod.fst ↔
      a ∈ events.map Prod.fst := by
    intro a
    simpa [applyTerminalEvents] using hmem a
  refine ⟨fun a => ?_, hnd, hmem2, ?_⟩
  · have h := assocFind_foldl_events events [] a
    simp only [applyTerminalEvents]
    rw [h]
    cases lastWrite events a <;> simp [assocFind]
  · have hfin : ((applyTerminalEvents events).map Prod.fst).toFinset =
        (events.map Prod.fst).toFinset := by
      ext a
      simp only [List.mem_toFinset]
      exact hmem2 a
    have hdt : (events.map Prod.fst).dedup.toFinset =
        (events.map Prod.fst).toFinset :=
      List.toFinset.ext fun x => List.mem_dedup
    have hperm : List.Perm ((applyTerminalEvents events).map Prod.fst)
        ((events.map Prod.fst).dedup) :=
      List.perm_of_nodup_nodup_toFinset_eq hnd (List.nodup_dedup _)
        (hfin.trans hdt.symm)
    simpa [dealsTotal, List.length_map] using hperm.length_eq

-- ═════════════════════════════════════════════════════════════════════════
-- §3  Config: exclusion sets (shared/config.py) and the PDF URL domain
--     allow-list (validators.py / tools.py)
-- ═════════════════════════════════════════════════════════════════════════

/-- shared/config.py EXCLUDED_DEALS. -/
def EXCLUDED_DEALS : List String :=
  ["Party City", "Diebold Nixdorf", "Incora", "Cano Health",
   "Envision Healthcare"]

/-- shared/config.py EXCLUDED_DEAL_IDS. -/
def EXCLUDED_DEAL_IDS : List String :=
  ["party-city-2023", "diebold-nixdorf-2023", "incora-2023",
   "cano-health-2024", "envision-healthcare-2023"]

/-- shared/config.py PRIORITY_KEYWORDS. -/
def PRIORITY_KEYWORDS : List String :=
  ["first day declaration", "declaration in support of first day",
   "DIP motion", "debtor in possession financing", "cash collateral",
   "capital structure", "prepetition debt", "credit agreement"]

/-- shared/config.py MAX_KEYWORD_QUERIES_PER_DEAL. -/
def MAX_KEYWORD_QUERIES_PER_DEAL : ℕ := 6

/-- shared/config.py MAX_PDF_BYTES (50 MB). -/
def MAX_PDF_BYTES : ℕ := 52428800

/-- One deal record, restricted to the fields the exclusion check and the
    worktree A pipeline skeleton read. -/
structure Deal where
  deal_id : String
  company_name : String
  already_processed : Bool
deriving Repr, DecidableEq

/-- shared/config.py is_excluded. -/
def isExcluded (deal : Deal) : Bool :=
  EXCLUDED_DEALS.contains deal.company_name ||
  EXCLUDED_DEAL_IDS.contains deal.deal_id ||
  deal.already_processed

/-- nodes.py exclusion_check_node: the pipeline_status (= final_status) it
    writes into the state. -/
def exclusionCheckNode (deal : Deal) : String :=
  if EXCLUDED_DEALS.contains deal.company_name ||
      EXCLUDED_DEAL_IDS.contains deal.deal_id ||
      deal.already_processed
  then "ALREADY_PROCESSED" else "active"

/-- Python \w: letters, digits and underscore (ASCII fragment used by the
    ecf domain pattern). -/
def wordChar (c : Char) : Bool := c.isAlphanum || c == '_'

/-- Whether the first list is an initial segment of the second. -/
def isLeadOf : List Char → List Char → Bool
  | [], _ => true
  | _ :: _, [] => false
  | p :: ps, c :: cs => p == c && isLeadOf ps cs

/-- Whether pat occurs contiguously somewhere in the second list; together
    with isLeadOf this is re.search for a literal pattern. -/
def containsSub (pat : List Char) : List Char → Bool
  | [] => pat.isEmpty
  | c :: cs => isLeadOf pat (c :: cs) || containsSub pat cs

/-- re.search of an escaped-literal pattern in a string. -/
def containsSubstr (pat u : String) : Bool :=
  containsSub pat.data u.data

/-- Match of the regex fragment ecf\.\w+\.uscourts\.gov at the head of the
    character list: the literal "ecf.", one or more word characters, then
    the literal ".uscourts.gov".  Because a word character can never start
    ".uscourts.gov", taking the maximal word-character run is exact. -/
def ecfCheckAt (s : List Char) : Bool :=
  isLeadOf "ecf.".data s &&
    (!((s.drop 4).takeWhile wordChar).isEmpty &&
      isLeadOf ".uscourts.gov".data ((s.drop 4).dropWhile wordChar))

/-- re.search of the ecf\.\w+\.uscourts\.gov pattern: try every start. -/
def ecfScan : List Char → Bool
  | [] => false
  | c :: cs => ecfCheckAt (c :: cs) || ecfScan cs

/-- The ecf domain pattern applied to a whole URL string. -/
def ecfPatternHit (u : String) : Bool :=
  ecfScan u.data

/-- validators.py _validate_url_domain (identical to tools.py
    validate_url_domain): empty or missing URLs are allowed, otherwise the
    URL must match one of VALID_PDF_DOMAIN_PATTERNS via re.search. -/
def validateUrlDomain : Option String → Bool
  | none => true
  | some u =>
    if u = "" then true
    else
      containsSubstr "kroll.com" u ||
      containsSubstr "cases.stretto.com" u ||
      containsSubstr "dm.epiq11.com" u ||
      containsSubstr "storage.courtlistener.com" u ||
      ecfPatternHit u ||
      containsSubstr "assets.kroll.com" u


-- ═════════════════════════════════════════════════════════════════════════
-- §4  Worktree A straight-line pipeline (main.py process_deal)
-- ═════════════════════════════════════════════════════════════════════════

/-- A candidate document as handed to the Gatekeeper (shared/gatekeeper.py
    dataclass CandidateDocument); also the dict shape used by nodes.py. -/
structure CandidateDoc where
  deal_id : String
  source : String
  docket_entry_id : String
  docket_title : String
  filing_date : String
  attachment_descriptions : List String
  resolved_pdf_url : Option String
  api_calls_consumed : ℕ
deriving Repr, DecidableEq

/-- Metadata of one RECAP document as returned by
    get_recap_document_metadata in main.py phase 3. -/
structure RecapDocMeta where
  description : String
  filepath_local : Option String
  is_available : Bool
deriving Repr, DecidableEq

/-- One docket entry as consumed by main.py phase 2. -/
structure DocketEntryA where
  id : ℕ
  description : String
  date_filed : String
  recap_documents : List ℕ
deriving Repr, DecidableEq

/-- Result dict of download_recap_pdf as read by main.py phase 5. -/
structure FetchResultA where
  success : Bool
  local_file_path : Option String
  size_bytes : ℕ
  failure_reason : Option String
deriving Repr, DecidableEq

/-- The external collaborators of one process_deal run: what find_docket,
    find_docket_entries, get_recap_document_metadata, the Gatekeeper backend
    and download_recap_pdf return.  The gatekeeper is a function of the
    candidate it is shown, exactly as gatekeeper.evaluate is. -/
structure OraclesA where
  docket : Option ℕ
  entries : List DocketEntryA
  docMeta : Option RecapDocMeta
  gkEval : CandidateDoc → GatekeeperResult
  fetch : FetchResultA

/-- Observable outcome of one process_deal run: the terminal status logged,
    the external-call counters handed to telemetry, the candidates shown to
    the Gatekeeper, and the URLs handed to the Fetcher. -/
structure OutcomeA where
  status : String
  apiCalls : ℕ
  llmCalls : ℕ
  gkCandidates : List CandidateDoc
  fetchedUrls : List String
deriving Repr, DecidableEq

/-- main.py line 204: prefix filepath_local with /recap/ after stripping
    leading slashes, unless it already starts with /recap/; an empty or
    missing filepath leaves the URL unresolved. -/
def resolvePdfUrlA (filepathLocal : Option String) : Option String :=
  match filepathLocal with
  | none => none
  | some fp =>
    if fp = "" then none
    else if isLeadOf ("/recap/").data fp.data then some fp
    else some ("/recap/" ++ ⟨fp.data.dropWhile (fun c => c = '/')⟩)

/-- Phases 4 and 5 of main.py process_deal: show the candidate to the
    Gatekeeper, terminate SKIPPED on a non-DOWNLOAD verdict, otherwise hand
    the resolved URL to the Fetcher (FETCH_FAILED when the URL is missing,
    the document is not available in RECAP, or the download fails). -/
def gatePhaseA (o : OraclesA) (candidate : CandidateDoc) (isAvail : Bool)
    (apiCalls2 : ℕ) : OutcomeA :=
  if (o.gkEval candidate).verdict ≠ "DOWNLOAD" then
    { status := "SKIPPED", apiCalls := apiCalls2, llmCalls := 1,
      gkCandidates := [candidate], fetchedUrls := [] }
  else
    match candidate.resolved_pdf_url with
    | none =>
      { status := "FETCH_FAILED", apiCalls := apiCalls2,
        llmCalls := 1, gkCandidates := [candidate], fetchedUrls := [] }
    | some url =>
      if !isAvail then
        { status := "FETCH_FAILED", apiCalls := apiCalls2,
          llmCalls := 1, gkCandidates := [candidate], fetchedUrls := [] }
      else if o.fetch.success then
        { status := "DOWNLOADED", apiCalls := apiCalls2,
          llmCalls := 1, gkCandidates := [candidate], fetchedUrls := [url] }
      else
        { status := "FETCH_FAILED", apiCalls := apiCalls2,
          llmCalls := 1, gkCandidates := [candidate], fetchedUrls := [url] }

/-- main.py process_deal: the deterministic control-flow skeleton with all
    external calls supplied by OraclesA.  Phase order: exclusion check,
    find_docket (one API call), find_docket_entries (min of the keyword count
    and MAX_KEYWORD_QUERIES_PER_DEAL calls), first entry with recap
    documents, get_recap_document_metadata (one call), Gatekeeper, Fetcher. -/
def processDealA (deal : Deal) (o : OraclesA) : OutcomeA :=
  if isExcluded deal then
    { status := "ALREADY_PROCESSED", apiCalls := 0, llmCalls := 0,
      gkCandidates := [], fetchedUrls := [] }
  else
    match o.docket with
    | none =>
      { status := "NOT_FOUND", apiCalls := 1, llmCalls := 0,
        gkCandidates := [], fetchedUrls := [] }
    | some _ =>
      let apiCalls1 :=
        1 + min PRIORITY_KEYWORDS.length MAX_KEYWORD_QUERIES_PER_DEAL
      if o.entries.isEmpty then
        { status := "NOT_FOUND", apiCalls := apiCalls1, llmCalls := 0,
          gkCandidates := [], fetchedUrls := [] }
      else
        match o.entries.find? (fun e => !e.recap_documents.isEmpty) with
        | none =>
          { status := "NOT_FOUND", apiCalls := apiCalls1, llmCalls := 0,
            gkCandidates := [], fetchedUrls := [] }
        | some entry =>
          let apiCalls2 := apiCalls1 + 1
          match o.docMeta with
          | none =>
            { status := "NOT_FOUND", apiCalls := apiCalls2, llmCalls := 0,
              gkCandidates := [], fetchedUrls := [] }
          | some meta =>
            let resolved := resolvePdfUrlA meta.filepath_local
            let candidate : CandidateDoc :=
              { deal_id := deal.deal_id, source := "courtlistener",
                docket_entry_id := toString entry.id,
                docket_title := entry.description,
                filing_date := entry.date_filed,
                attachment_descriptions :=
                  if meta.description = "" then [] else [meta.description],
                resolved_pdf_url := resolved,
                api_calls_consumed := apiCalls2 }
            gatePhaseA o candidate meta.is_available apiCalls2

theorem isExcluded_iff (deal : Deal) :
    isExcluded deal = true ↔
      (deal.company_name ∈ EXCLUDED_DEALS ∨ deal.deal_id ∈ EXCLUDED_DEAL_IDS ∨
        deal.already_processed = true) := by
  simp [isExcluded]
  tauto

theorem gatePhaseA_shape (o : OraclesA) (candidate : CandidateDoc)
    (isAvail : Bool) (n : ℕ) :
    (gatePhaseA o candidate isAvail n).status ≠ "ALREADY_PROCESSED" ∧
    (gatePhaseA o candidate isAvail n).apiCalls = n ∧
    (gatePhaseA o candidate isAvail n).gkCandidates = [candidate] := by
  rw [gatePhaseA]
  split
  · exact ⟨by simp, rfl, rfl⟩
  · split
    · exact ⟨by simp, rfl, rfl⟩
    · split
      · exact ⟨by simp, rfl, rfl⟩
      · split
        · exact ⟨by simp, rfl, rfl⟩
        · exact ⟨by simp, rfl, rfl⟩

theorem processDealA_apiCalls_pos (deal : Deal) (o : OraclesA)
    (h : isExcluded deal = false) : 0 < (processDealA deal o).apiCalls := by
  rw [processDealA, if_neg (by simp [h])]
  rcases o.docket with _ | dk
  · simp
  · repeat' split
    all_goals
      simp [PRIORITY_KEYWORDS, MAX_KEYWORD_QUERIES_PER_DEAL,
        (gatePhaseA_shape _ _ _ _).2.1]

theorem processDealA_status_excl (deal : Deal) (o : OraclesA)
    (h : isExcluded deal = false) :
    (processDealA deal o).status ≠ "ALREADY_PROCESSED" := by
  rw [processDealA, if_neg (by simp [h])]
  rcases o.docket with _ | dk
  · simp
  · repeat' split
    all_goals first
      | exact (gatePhaseA_shape _ _ _ _).1
      | simp

-- ═════════════════════════════════════════════════════════════════════════
-- Theorem for C4
-- ═════════════════════════════════════════════════════════════════════════

/-- C4: a deal is classified excluded — terminal status ALREADY_PROCESSED,
    zero external calls, no candidate ever shown to the Gatekeeper and no
    URL ever handed to the Fetcher — exactly when its company name is in the
    configured exclusion set, or its deal id is in the excluded-id set, or
    its already_processed flag is set; and the graph exclusion node marks
    the state ALREADY_PROCESSED under exactly the same condition. -/
theorem exclusion_check_is_zero_cost (deal : Deal) (o : OraclesA) :
    ((deal.company_name ∈ EXCLUDED_DEALS ∨ deal.deal_id ∈ EXCLUDED_DEAL_IDS ∨
        deal.already_processed = true) ↔
      ((processDealA deal o).status = "ALREADY_PROCESSED" ∧
       (processDealA deal o).apiCalls = 0 ∧
       (processDealA deal o).llmCalls = 0 ∧
       (processDealA deal o).gkCandidates = [] ∧
       (processDealA deal o).fetchedUrls = [])) ∧
    (exclusionCheckNode deal = "ALREADY_PROCESSED" ↔
      (deal.company_name ∈ EXCLUDED_DEALS ∨ deal.deal_id ∈ EXCLUDED_DEAL_IDS ∨
        deal.already_processed = true)) := by
  constructor
  · constructor
    · intro hmem
      have hexcl : isExcluded deal = true := (isExcluded_iff deal).mpr hmem
      rw [processDealA, if_pos (by simp [hexcl])]
      exact ⟨rfl, rfl, rfl, rfl, rfl⟩
    · intro hout
      cases hexcl : isExcluded deal with
      | true => exact (isExcluded_iff deal).mp hexcl
      | false =>
        exact absurd hout.1 (processDealA_status_excl deal o hexcl)
  · rw [exclusionCheckNode]
    constructor
    · intro hnode
      by_contra hmem
      have hexcl : isExcluded deal = false := by
        cases h : isExcluded deal
        · rfl
        · exact absurd ((isExcluded_iff deal).mp h) hmem
      rw [if_neg (by simp [isExcluded] at hexcl ⊢; exact hexcl)] at hnode
      exact absurd hnode (by simp)
    · intro hmem
      have hexcl : isExcluded deal = true := (isExcluded_iff deal).mpr hmem
      rw [if_pos (by simp [isExcluded] at hexcl ⊢; exact hexcl)]

/-- Witness for C4 at concrete inputs: the pre-excluded deal Party City is
    recognised by both pipelines, with trivial external oracles. -/
theorem exclusion_check_is_zero_cost_witness :
    ("Party City" ∈ EXCLUDED_DEALS ∨ "party-city-2023" ∈ EXCLUDED_DEAL_IDS ∨
        true = true) ∧
    (processDealA ⟨"party-city-2023", "Party City", true⟩
        ⟨none, [], none,
          fun _ => { verdict := "SKIP", score := 0, reasoning := "",
                     token_count := 0, model_used := "", latency_ms := 0,
                     error := none },
          ⟨false, none, 0, none⟩⟩).status = "ALREADY_PROCESSED" := by
  refine ⟨Or.inl (by decide), ?_⟩
  exact ((exclusion_check_is_zero_cost ⟨"party-city-2023", "Party City", true⟩
    ⟨none, [], none,
      fun _ => { verdict := "SKIP", score := 0, reasoning := "",
                 token_count := 0, model_used := "", latency_ms := 0,
                 error := none },
      ⟨false, none, 0, none⟩⟩).1.mp (Or.inl (by decide))).1

-- ═════════════════════════════════════════════════════════════════════════
-- §5  Discovery extraction with the URL guard (tools.py
--     search_courtlistener_api, nodes.py scout_node phase 1)
-- ═════════════════════════════════════════════════════════════════════════

/-- One attachment dict of a CourtListener docket entry as read by
    tools.py search_courtlistener_api. -/
structure AttachmentT where
  description : String
  pdf_url : Option String
deriving Repr, DecidableEq

/-- One docket entry dict of the CourtListener docket-entries response. -/
structure ApiEntryT where
  id : ℕ
  description : String
  date_filed : String
  attachments : List AttachmentT
deriving Repr, DecidableEq

/-- tools.py lines 146-150: the first attachment with a truthy pdf_url. -/
def firstAttachmentUrl (atts : List AttachmentT) : Option String :=
  match atts.find? (fun a => a.pdf_url.getD "" != "") with
  | some a => a.pdf_url
  | none => none

/-- The candidate-building loop of tools.py search_courtlistener_api over
    the entries of one docket: skip entries without a description, and skip
    entries whose pdf_url is present but fails validate_url_domain. -/
def extractApiCandidates (dealId : String) (apiCalls : ℕ)
    (entries : List ApiEntryT) : List CandidateDoc :=
  entries.filterMap (fun entry =>
    if entry.description = "" then none
    else
      match firstAttachmentUrl entry.attachments with
      | some u =>
        if validateUrlDomain (some u) then
          some { deal_id := dealId, source := "courtlistener",
                 docket_entry_id := toString entry.id,
                 docket_title := entry.description,
                 filing_date := pyTruncate entry.date_filed 10,
                 attachment_descriptions :=
                   (entry.attachments.take 5).map (fun a => a.description),
                 resolved_pdf_url := some u,
                 api_calls_consumed := apiCalls }
        else none
      | none =>
        some { deal_id := dealId, source := "courtlistener",
               docket_entry_id := toString entry.id,
               docket_title := entry.description,
               filing_date := pyTruncate entry.date_filed 10,
               attachment_descriptions :=
                 (entry.attachments.take 5).map (fun a => a.description),
               resolved_pdf_url := none,
               api_calls_consumed := apiCalls })

/-- One flat result dict of the CourtListener V4 search response as read by
    nodes.py scout_node phase 1. -/
structure V4Result where
  id : ℕ
  is_available : Bool
  caseName : Option String
  dateFiled : Option String
  short_description : String
  filepath_local : String
deriving Repr, DecidableEq

/-- The candidate-extraction loop of nodes.py scout_node phase 1 over the
    results of one V4 query: skip unavailable results and results without a
    filepath, build the PDF URL under storage.courtlistener.com, and stop at
    the first kept candidate (the loop breaks after one append). -/
def scoutNodeExtract (dealId companyName : String) (apiCalls : ℕ) :
    List V4Result → List CandidateDoc
  | [] => []
  | r :: rest =>
    if !r.is_available then scoutNodeExtract dealId companyName apiCalls rest
    else if r.filepath_local = "" then
      scoutNodeExtract dealId companyName apiCalls rest
    else
      [{ deal_id := dealId, source := "courtlistener",
         docket_entry_id := toString r.id,
         docket_title :=
           if r.short_description = "" then r.caseName.getD companyName
           else r.short_description,
         filing_date :=
           match r.dateFiled with
           | some d => pyTruncate d 10
           | none => "",
         attachment_descriptions := [],
         resolved_pdf_url :=
           some ("https://storage.courtlistener.com/" ++ r.filepath_local),
         api_calls_consumed := apiCalls }]

theorem isLeadOf_self_append (p t : List Char) : isLeadOf p (p ++ t) = true := by
  induction p with
  | nil => rfl
  | cons c cs ih => simp [isLeadOf, ih]

theorem containsSub_self_append (p t : List Char) :
    containsSub p (p ++ t) = true := by
  cases p with
  | nil => cases t <;> simp [containsSub, isLeadOf, List.isEmpty]
  | cons c cs =>
    have h := isLeadOf_self_append (c :: cs) t
    simp only [List.cons_append] at h ⊢
    simp [containsSub, h]

theorem containsSub_append_left (p a t : List Char)
    (h : containsSub p t = true) : containsSub p (a ++ t) = true := by
  induction a with
  | nil => simpa
  | cons c cs ih => simp [containsSub, ih]

theorem containsSubstr_storage (fp : String) :
    containsSubstr "storage.courtlistener.com"
      ("https://storage.courtlistener.com/" ++ fp) = true := by
  rw [containsSubstr, String.data_append]
  have hsplit : ("https://storage.courtlistener.com/").data =
      ("https://").data ++
        (("storage.courtlistener.com").data ++ ("/").data) := by rfl
  rw [hsplit, List.append_assoc]
  apply containsSub_append_left
  rw [List.append_assoc]
  exact containsSub_self_append _ _

theorem validateUrlDomain_storage (fp : String) :
    validateUrlDomain
      (some ("https://storage.courtlistener.com/" ++ fp)) = true := by
  rw [validateUrlDomain]
  split
  · rfl
  · simp [containsSubstr_storage]

/-- A deal that is in no exclusion set, used to exercise main.py. -/
def urlGuardDeal : Deal := ⟨"acme-corp-2023", "Acme Corp", false⟩

/-- Oracles describing one realistic main.py run: a docket is found, the
    selected entry has a RECAP document, and its metadata carries a
    filepath_local, so the resolved URL is the relative /recap/ path main.py
    builds on line 204. -/
def urlGuardOracles : OraclesA :=
  { docket := some 1
    entries := [⟨42, "Declaration in Support of First Day Motions",
                 "2023-05-01", [7]⟩]
    docMeta := some ⟨"First Day Declaration",
                 some "recap/gov.uscourts.txsd.12345.pdf", true⟩
    gkEval := fun _ =>
      { verdict := "DOWNLOAD", score := 9/10, reasoning := "relevant",
        token_count := 50, model_used := "m", latency_ms := 100,
        error := none }
    fetch := ⟨true, some "downloads/acme-corp-2023/42.pdf", 1000, none⟩ }

-- ═════════════════════════════════════════════════════════════════════════
-- Theorems for C7
-- ═════════════════════════════════════════════════════════════════════════

/-- C7 (counterexample): in the straight-line main.py pipeline a discovered
    candidate whose resolved URL (the relative /recap/ path) matches no
    allow-list domain pattern is nevertheless shown to the Gatekeeper and
    its URL handed to the Fetcher — the claim that such candidates are
    dropped fails on this concrete run. -/
theorem candidate_url_guard_counterexample :
    ((processDealA urlGuardDeal urlGuardOracles).gkCandidates.map
        (fun c => validateUrlDomain c.resolved_pdf_url)) = [false] ∧
    ((processDealA urlGuardDeal urlGuardOracles).gkCandidates.map
        (fun c => c.resolved_pdf_url)) =
      [some "/recap/recap/gov.uscourts.txsd.12345.pdf"] ∧
    (processDealA urlGuardDeal urlGuardOracles).fetchedUrls =
      ["/recap/recap/gov.uscourts.txsd.12345.pdf"] ∧
    (processDealA urlGuardDeal urlGuardOracles).status = "DOWNLOADED" :=
  ⟨rfl, rfl, rfl, rfl⟩

/-- C7 (amended): the URL allow-list guard holds for the discovery paths
    that implement it — the CourtListener API discovery tool drops every
    candidate whose present URL fails validate_url_domain, and the graph
    scout node only ever constructs URLs under storage.courtlistener.com —
    so every candidate those two paths surface passes the allow-list; the
    straight-line main.py pipeline performs no such check (see the
    counterexample). -/
theorem candidate_url_guard_amended
    (dealId companyName : String) (apiCalls : ℕ)
    (entries : List ApiEntryT) (results : List V4Result) :
    (∀ c ∈ extractApiCandidates dealId apiCalls entries,
        validateUrlDomain c.resolved_pdf_url = true) ∧
    (∀ c ∈ scoutNodeExtract dealId companyName apiCalls results,
        validateUrlDomain c.resolved_pdf_url = true) := by
  constructor
  · intro c hc
    rw [extractApiCandidates] at hc
    obtain ⟨entry, hent, hmk⟩ := List.mem_filterMap.mp hc
    split at hmk
    · exact absurd hmk (by simp)
    · split at hmk
      · split at hmk
        · obtain rfl := Option.some.inj hmk
          simp_all
        · exact absurd hmk (by simp)
      · obtain rfl := Option.some.inj hmk
        rfl
  · intro c hc
    induction results with
    | nil => cases hc
    | cons r rest ih =>
      rw [scoutNodeExtract] at hc
      by_cases ha : (!r.is_available) = true
      · rw [if_pos ha] at hc
        exact ih hc
      · rw [if_neg ha] at hc
        by_cases hf : r.filepath_local = ""
        · rw [if_pos hf] at hc
          exact ih hc
        · rw [if_neg hf] at hc
          obtain rfl := List.mem_singleton.mp hc
          simpa using validateUrlDomain_storage r.filepath_local

/-- Witness for the amended C7 at a concrete input: a candidate with an
    allow-listed Stretto URL survives the API discovery guard and its URL
    validates. -/
theorem candidate_url_guard_amended_witness :
    validateUrlDomain
      ({ deal_id := "d", source := "courtlistener", docket_entry_id := "1",
         docket_title := "First Day Declaration", filing_date := "2023-01-05",
         attachment_descriptions := ["decl"],
         resolved_pdf_url := some "https://cases.stretto.com/acme/1.pdf",
         api_calls_consumed := 2 } : CandidateDoc).resolved_pdf_url = true :=
  (candidate_url_guard_amended "d" "Acme" 2
    [⟨1, "First Day Declaration", "2023-01-05",
        [⟨"decl", some "https://cases.stretto.com/acme/1.pdf"⟩]⟩] []).1
    _ (by decide)

-- ═════════════════════════════════════════════════════════════════════════
-- §6  Worktree C graph from the gatekeeping step
--     (nodes.py gatekeeper_node / fetcher_node / fallback_node / log_node /
--      telemetry_node, graph.py routing)
-- ═════════════════════════════════════════════════════════════════════════

/-- The gatekeeper-result dict stored in the graph state, restricted to the
    fields the routing and terminal nodes read. -/
structure CGkResult where
  verdict : String
  score : ℚ
deriving Repr, DecidableEq

/-- The slice of the LangGraph PipelineState (state_types.py) the
    gatekeeping-to-terminal part of the graph reads and writes. -/
structure CState where
  candidates : List CandidateDoc
  gatekeeper_results : List CGkResult
  downloaded_files : List String
  pipeline_status : String
deriving Repr, DecidableEq

/-- nodes.py gatekeeper_node, with the LLM call as an oracle: short-circuit
    if some stored result already says DOWNLOAD, empty the result list when
    there are no candidates, otherwise evaluate candidates[0] only and
    append its result.  The second component is the list of candidates
    evaluated during this invocation. -/
def gatekeeperNodeC (eval : CandidateDoc → CGkResult) (st : CState) :
    CState × List CandidateDoc :=
  if st.gatekeeper_results.any (fun r => r.verdict == "DOWNLOAD") then
    (st, [])
  else
    match st.candidates with
    | [] => ({ st with gatekeeper_results := [] }, [])
    | c :: _ =>
      ({ st with gatekeeper_results := st.gatekeeper_results ++ [eval c] },
       [c])

/-- graph.py route_after_gatekeeper: route on the verdict of the latest
    result; no results at all routes to skip. -/
def routeAfterGatekeeperC (st : CState) : String :=
  match st.gatekeeper_results.getLast? with
  | none => "skip"
  | some r => if r.verdict = "DOWNLOAD" then "download" else "skip"

/-- nodes.py log_node: the terminal status written on the skip path. -/
def logNodeC (st : CState) : String :=
  if !st.downloaded_files.isEmpty then "DOWNLOADED"
  else if st.candidates.isEmpty then "NOT_FOUND"
  else if st.gatekeeper_results.any (fun r => r.verdict == "SKIP") then
    "SKIPPED"
  else st.pipeline_status

/-- nodes.py fetcher_node with the HTTP download abstracted to a success
    flag: download candidates[0] when some stored verdict is DOWNLOAD and
    the candidate has a URL, otherwise leave downloaded_files empty. -/
def fetcherNodeC (fetchOk : Bool) (st : CState) : CState :=
  if st.candidates.isEmpty || st.gatekeeper_results.isEmpty then
    { st with downloaded_files := [] }
  else if !(st.gatekeeper_results.any (fun r => r.verdict == "DOWNLOAD")) then
    { st with downloaded_files := [] }
  else
    match st.candidates with
    | [] => { st with downloaded_files := [] }
    | c :: _ =>
      match c.resolved_pdf_url with
      | none => { st with downloaded_files := [] }
      | some _ =>
        if fetchOk then
          { st with downloaded_files := [c.docket_entry_id ++ ".pdf"] }
        else
          { st with downloaded_files := [] }

/-- The graph from the gatekeeper node to END (graph.py edges): gatekeeper,
    then route to fetcher or log; after the fetcher, telemetry_node on
    success and fallback_node (status FETCH_FAILED) then telemetry_node on
    failure.  Returns the terminal status and the candidates the gatekeeper
    evaluated. -/
def runFromGatekeepingC (eval : CandidateDoc → CGkResult) (fetchOk : Bool)
    (st : CState) : String × List CandidateDoc :=
  let step := gatekeeperNodeC eval st
  let st1 := step.1
  if routeAfterGatekeeperC st1 = "download" then
    let st2 := fetcherNodeC fetchOk st1
    if !st2.downloaded_files.isEmpty then ("DOWNLOADED", step.2)
    else ("FETCH_FAILED", step.2)
  else (logNodeC st1, step.2)

/-- Modelled from the claim and spec section 4.1 GATEKEEPING: invoke the
    Gatekeeper on candidates in source order, stopping at the first DOWNLOAD
    verdict; the first component is the candidate chosen for download (none
    when every evaluated candidate was rejected), the second the candidates
    evaluated. -/
def cascadeGo (eval : CandidateDoc → CGkResult) :
    List CandidateDoc → Option CandidateDoc × List CandidateDoc
  | [] => (none, [])
  | c :: rest =>
    if (eval c).verdict = "DOWNLOAD" then (some c, [c])
    else
      let next := cascadeGo eval rest
      (next.1, c :: next.2)

/-- Modelled from the claim and spec section 4.1 GATEKEEPING: the up-to-3
    candidate cap applied before the cascade. -/
def gatekeeperCascadeSpec (eval : CandidateDoc → CGkResult)
    (candidates : List CandidateDoc) : Option CandidateDoc × List CandidateDoc :=
  cascadeGo eval (candidates.take 3)

/-- A decoy candidate the concrete gatekeeper oracle rejects. -/
def cascadeCand1 : CandidateDoc :=
  { deal_id := "acme-corp-2023", source := "courtlistener",
    docket_entry_id := "1", docket_title := "Certificate of Service",
    filing_date := "2023-05-02", attachment_descriptions := [],
    resolved_pdf_url := some "https://storage.courtlistener.com/recap/a.pdf",
    api_calls_consumed := 1 }

/-- A relevant candidate the concrete gatekeeper oracle approves. -/
def cascadeCand2 : CandidateDoc :=
  { deal_id := "acme-corp-2023", source := "courtlistener",
    docket_entry_id := "2", docket_title := "First Day Declaration",
    filing_date := "2023-05-01", attachment_descriptions := [],
    resolved_pdf_url := some "https://storage.courtlistener.com/recap/b.pdf",
    api_calls_consumed := 2 }

/-- A deterministic gatekeeper oracle: DOWNLOAD for docket entry 2, SKIP
    for everything else. -/
def cascadeEval : CandidateDoc → CGkResult := fun c =>
  if c.docket_entry_id = "2" then ⟨"DOWNLOAD", 9/10⟩ else ⟨"SKIP", 1/10⟩

-- ═════════════════════════════════════════════════════════════════════════
-- Theorems for C8
-- ═════════════════════════════════════════════════════════════════════════

/-- C8 (counterexample): with two candidates of which only the second would
    get a DOWNLOAD verdict, the graph evaluates only the first candidate and
    terminates SKIPPED, while the cascade the claim describes continues to
    the second candidate and stops at its DOWNLOAD verdict — so the claim
    that up to 3 candidates are evaluated before SKIPPED fails here. -/
theorem gatekeeper_cascade_counterexample :
    runFromGatekeepingC cascadeEval true
        ⟨[cascadeCand1, cascadeCand2], [], [], "active"⟩ =
      ("SKIPPED", [cascadeCand1]) ∧
    (gatekeeperCascadeSpec cascadeEval [cascadeCand1, cascadeCand2]).1 =
      some cascadeCand2 ∧
    (gatekeeperCascadeSpec cascadeEval [cascadeCand1, cascadeCand2]).2 =
      [cascadeCand1, cascadeCand2] ∧
    (cascadeEval cascadeCand2).verdict = "DOWNLOAD" := by
  refine ⟨?_, ?_, ?_, ?_⟩ <;> rfl

/-- C8 (amended): for every deal that reaches gatekeeping with a non-empty
    candidate list, the Gatekeeper is invoked on exactly one candidate — the
    first — and if that single verdict is SKIP the terminal status is
    SKIPPED; the straight-line main.py pipeline likewise never shows more
    than one candidate to the Gatekeeper. -/
theorem gatekeeper_first_candidate_only
    (eval : CandidateDoc → CGkResult) (fetchOk : Bool) (st : CState)
    (c : CandidateDoc) (cs : List CandidateDoc)
    (hc : st.candidates = c :: cs) (hr : st.gatekeeper_results = [])
    (hd : st.downloaded_files = []) :
    (runFromGatekeepingC eval fetchOk st).2 = [c] ∧
    ((eval c).verdict = "SKIP" →
      (runFromGatekeepingC eval fetchOk st).1 = "SKIPPED") ∧
    (∀ deal o, (processDealA deal o).gkCandidates.length ≤ 1) := by
  have hstep : gatekeeperNodeC eval st =
      ({ st with gatekeeper_results := [eval c] }, [c]) := by
    rw [gatekeeperNodeC, hr, hc]
    simp
  refine ⟨?_, ?_, ?_⟩
  · simp only [runFromGatekeepingC, hstep]
    split
    · split <;> rfl
    · rfl
  · intro hskip
    have hnotdl : (eval c).verdict ≠ "DOWNLOAD" := by
      rw [hskip]
      decide
    simp only [runFromGatekeepingC, hstep]
    rw [if_neg (by simp [routeAfterGatekeeperC, hnotdl])]
    rw [logNodeC]
    simp [hd, hc, hskip]
  · intro deal o
    rw [processDealA]
    repeat' split
    all_goals first
      | (rw [(gatePhaseA_shape _ _ _ _).2.2]; simp)
      | simp

/-- Witness for the amended C8 at a concrete input: one rejected candidate,
    terminal SKIPPED after a single evaluation. -/
theorem gatekeeper_first_candidate_only_witness :
    (runFromGatekeepingC (fun _ => ⟨"SKIP", 0⟩) true
        ⟨[cascadeCand1], [], [], "active"⟩).2 = [cascadeCand1] ∧
    (runFromGatekeepingC (fun _ => ⟨"SKIP", 0⟩) true
        ⟨[cascadeCand1], [], [], "active"⟩).1 = "SKIPPED" := by
  have h := gatekeeper_first_candidate_only (fun _ => ⟨"SKIP", 0⟩) true
    ⟨[cascadeCand1], [], [], "active"⟩ cascadeCand1 [] rfl rfl rfl
  exact ⟨h.1, h.2.1 rfl⟩

-- ═════════════════════════════════════════════════════════════════════════
-- §7  Fetcher (fetcher.py download_via_httpx_fallback, nodes.py
--     fetcher_node)
-- ═════════════════════════════════════════════════════════════════════════

/-- The result dict of the httpx streaming download. -/
structure FetchResultB where
  success : Bool
  local_file_path : Option String
  file_size_bytes : ℕ
  failure_reason : Option String
deriving Repr, DecidableEq

/-- The streaming loop of download_via_httpx_fallback: write each chunk to
    the open file, add its length to the running total, and raise as soon as
    the total exceeds the limit.  Returns (aborted, bytes on disk); on abort
    the chunk that crossed the limit has already been written. -/
def writeChunks (limit : ℕ) : List ℕ → ℕ → Bool × ℕ
  | [], written => (false, written)
  | c :: rest, written =>
    let written2 := written + c
    if limit < written2 then (true, written2)
    else writeChunks limit rest written2

/-- fetcher.py download_via_httpx_fallback with the HTTP transport
    abstracted: raise_for_status happens before the file is opened; the
    50 MB guard raises inside the write loop and the except arm returns a
    failure dict without deleting the file.  First component is the returned
    dict, second the bytes left on disk (none when no file was created). -/
def downloadViaHttpxFallback (statusOk : Bool) (path : String)
    (chunks : List ℕ) : FetchResultB × Option ℕ :=
  if !statusOk then
    ({ success := false, local_file_path := none, file_size_bytes := 0,
       failure_reason := some "HTTPStatusError" }, none)
  else
    match writeChunks (50 * 1024 * 1024) chunks 0 with
    | (true, written) =>
      ({ success := false, local_file_path := none, file_size_bytes := 0,
         failure_reason := some "Download exceeded 50MB limit" },
       some written)
    | (false, written) =>
      ({ success := true, local_file_path := some path,
         file_size_bytes := written, failure_reason := none },
       some written)

/-- nodes.py fetcher_node, download part: the ceiling is checked only
    against the declared content-length header before the file is opened;
    the streamed bytes themselves are written unconditionally.  Returns
    (downloaded_files, bytes on disk). -/
def fetcherNodeDownload (status : ℕ) (contentLength : Option ℕ)
    (path : String) (chunks : List ℕ) : List String × Option ℕ :=
  if status ≠ 200 then ([], none)
  else
    match contentLength with
    | some n =>
      if MAX_PDF_BYTES < n then ([], none)
      else ([path], some chunks.sum)
    | none => ([path], some chunks.sum)

theorem writeChunks_spec (limit : ℕ) (chunks : List ℕ) (acc : ℕ)
    (hacc : acc ≤ limit) :
    (limit < acc + chunks.sum →
      (writeChunks limit chunks acc).1 = true ∧
        limit < (writeChunks limit chunks acc).2) ∧
    (acc + chunks.sum ≤ limit →
      writeChunks limit chunks acc = (false, acc + chunks.sum)) := by
  induction chunks generalizing acc with
  | nil =>
    refine ⟨fun hover => absurd hover (by simp; omega), fun _ => by
      simp [writeChunks]⟩
  | cons c rest ih =>
    constructor
    · intro hover
      rw [writeChunks]
      by_cases hc : limit < acc + c
      · simp [hc]
      · rw [if_neg (by simpa using hc)]
        exact (ih (acc + c) (by omega)).1
          (by simp [List.sum_cons] at hover ⊢; omega)
    · intro hunder
      rw [writeChunks]
      have hc : ¬ limit < acc + c := by
        simp [List.sum_cons] at hunder
        omega
      rw [if_neg (by simpa using hc)]
      have := (ih (acc + c) (by omega)).2
        (by simp [List.sum_cons] at hunder ⊢; omega)
      rw [this]
      simp [List.sum_cons]
      omega

-- ═════════════════════════════════════════════════════════════════════════
-- Theorems for C5
-- ═════════════════════════════════════════════════════════════════════════

/-- C5 (counterexample): a stream of 6401 chunks of 8192 bytes (52436992
    bytes, above the 50 MB ceiling) makes the httpx fallback abort and
    report failure, but the partial file stays on disk with more than the
    ceiling written — the claim that no file is left on disk fails here. -/
theorem fetch_size_ceiling_counterexample :
    (downloadViaHttpxFallback true "downloads/acme-corp-2023/doc.pdf"
        (List.replicate 6401 8192)).1.success = false ∧
    (downloadViaHttpxFallback true "downloads/acme-corp-2023/doc.pdf"
        (List.replicate 6401 8192)).1.failure_reason =
      some "Download exceeded 50MB limit" ∧
    ∃ n, (downloadViaHttpxFallback true "downloads/acme-corp-2023/doc.pdf"
        (List.replicate 6401 8192)).2 = some n ∧
      50 * 1024 * 1024 < n := by
  have hsum : (50 * 1024 * 1024 : ℕ) <
      (List.replicate 6401 8192 : List ℕ).sum := by
    rw [List.sum_replicate, smul_eq_mul]
    norm_num
  obtain ⟨h1, h2⟩ :=
    (writeChunks_spec (50 * 1024 * 1024) (List.replicate 6401 8192) 0
      (Nat.zero_le _)).1 (by rw [Nat.zero_add]; exact hsum)
  rw [downloadViaHttpxFallback]
  cases hw : writeChunks (50 * 1024 * 1024) (List.replicate 6401 8192) 0 with
  | mk aborted written =>
    rw [hw] at h1 h2
    subst h1
    exact ⟨rfl, rfl, written, rfl, h2⟩

/-- C5 (amended): a fetch whose true byte count exceeds the 50 MB ceiling
    makes the httpx fallback abort mid-stream with success false and a
    descriptive failure reason, but the partial file is not deleted: it
    remains on disk holding more than the ceiling; the graph fetcher_node
    enforces the ceiling only against the declared content-length header,
    writing and reporting the whole body as a success when the header is
    absent. -/
theorem fetch_size_ceiling_amended (path : String) (chunks : List ℕ)
    (h : 50 * 1024 * 1024 < chunks.sum) :
    ((downloadViaHttpxFallback true path chunks).1.success = false ∧
     (downloadViaHttpxFallback true path chunks).1.failure_reason =
       some "Download exceeded 50MB limit" ∧
     ∃ n, (downloadViaHttpxFallback true path chunks).2 = some n ∧
       50 * 1024 * 1024 < n) ∧
    fetcherNodeDownload 200 none path chunks = ([path], some chunks.sum) := by
  obtain ⟨h1, h2⟩ :=
    (writeChunks_spec (50 * 1024 * 1024) chunks 0 (Nat.zero_le _)).1
      (by simpa using h)
  constructor
  · rw [downloadViaHttpxFallback]
    cases hw : writeChunks (50 * 1024 * 1024) chunks 0 with
    | mk aborted written =>
      rw [hw] at h1 h2
      subst h1
      exact ⟨rfl, rfl, written, rfl, h2⟩
  · rfl

/-- Witness for the amended C5 at the concrete oversize stream. -/
theorem fetch_size_ceiling_amended_witness :
    50 * 1024 * 1024 < (List.replicate 6401 8192 : List ℕ).sum ∧
    ((downloadViaHttpxFallback true "downloads/acme-corp-2023/doc.pdf"
        (List.replicate 6401 8192)).1.success = false ∧
     (downloadViaHttpxFallback true "downloads/acme-corp-2023/doc.pdf"
        (List.replicate 6401 8192)).1.failure_reason =
       some "Download exceeded 50MB limit" ∧
     ∃ n, (downloadViaHttpxFallback true "downloads/acme-corp-2023/doc.pdf"
        (List.replicate 6401 8192)).2 = some n ∧
       50 * 1024 * 1024 < n) ∧
    fetcherNodeDownload 200 none "downloads/acme-corp-2023/doc.pdf"
        (List.replicate 6401 8192) =
      (["downloads/acme-corp-2023/doc.pdf"],
        some (List.replicate 6401 8192 : List ℕ).sum) := by
  have hsum : (50 * 1024 * 1024 : ℕ) <
      (List.replicate 6401 8192 : List ℕ).sum := by
    rw [List.sum_replicate, smul_eq_mul]
    norm_num
  exact ⟨hsum, fetch_size_ceiling_amended "downloads/acme-corp-2023/doc.pdf"
    (List.replicate 6401 8192) hsum⟩

-- ═════════════════════════════════════════════════════════════════════════
-- §8  Scout petition date guard (scout.py scout_with_fallback, step 3)
-- ═════════════════════════════════════════════════════════════════════════

/-- The filing_date field of one discovered entry, seen through
    dateutil.parser.parse: absent (falsy), present but unparseable (parse
    raises, the except arm keeps the entry), or parsed to a calendar day
    (dates modelled as integer day numbers, so the timedelta .days between
    two midnight datetimes is their difference). -/
inductive DateField where
  | missing
  | unparseable (s : String)
  | parsed (day : ℤ)
deriving Repr, DecidableEq

/-- One discovered entry as the date guard sees it. -/
structure ScoutEntry where
  docket_title : String
  filing : DateField
deriving Repr, DecidableEq

/-- The filtering loop of scout.py lines 454-474: keep entries with a
    missing or unparseable filing date, drop an entry exactly when its
    parsed filing day is more than 30 days after the petition day. -/
def dateGuard (petitionDay : ℤ) : List ScoutEntry → List ScoutEntry
  | [] => []
  | r :: rest =>
    match r.filing with
    | .missing => r :: dateGuard petitionDay rest
    | .unparseable _ => r :: dateGuard petitionDay rest
    | .parsed d =>
      if 30 < d - petitionDay then dateGuard petitionDay rest
      else r :: dateGuard petitionDay rest

/-- scout.py lines 449-476: the guard only runs when the deal specifies a
    petition date (outer if) and that date parses (the except arm leaves the
    results unchanged).  The petition date is none when absent or empty,
    some none when present but unparseable, some (some p) when parsed. -/
def scoutDateGuard : Option (Option ℤ) → List ScoutEntry → List ScoutEntry
  | none, results => results
  | some none, results => results
  | some (some p), results => dateGuard p results

-- ═════════════════════════════════════════════════════════════════════════
-- Theorem for C9
-- ═════════════════════════════════════════════════════════════════════════

/-- C9: for a deal with a parsed petition date the guard removes exactly
    the entries whose parseable filing date lies more than 30 days after
    it — entries with a missing or unparseable filing date are all kept —
    and without a usable petition date the results pass through unchanged. -/
theorem date_guard_exact (p : ℤ) (results : List ScoutEntry) :
    scoutDateGuard (some (some p)) results =
      results.filter (fun r =>
        match r.filing with
        | .parsed d => decide (d - p ≤ 30)
        | .missing => true
        | .unparseable _ => true) ∧
    scoutDateGuard none results = results ∧
    scoutDateGuard (some none) results = results := by
  refine ⟨?_, rfl, rfl⟩
  show dateGuard p results = _
  induction results with
  | nil => rfl
  | cons r rest ih =>
    obtain ⟨title, filing⟩ := r
    cases filing with
    | missing => simpa [dateGuard, List.filter_cons] using ih
    | unparseable s => simpa [dateGuard, List.filter_cons] using ih
    | parsed d =>
      by_cases h30 : 30 < d - p
      · have hle : ¬ (d - p ≤ 30) := by omega
        simp only [dateGuard, List.filter_cons]
        rw [if_pos h30, if_neg (by simpa using hle)]
        exact ih
      · have hle : d - p ≤ 30 := by omega
        simp only [dateGuard, List.filter_cons]
        rw [if_neg h30, if_pos (by simpa using hle), ih]
